import Mathlib

/-!
Shallow embedding of `weekly_agent.py` (ECDC weekly-report notification agent).

The Python program is a single sequential pipeline:
locate the latest weekly report URL (three cascading strategies), download the
PDF (with a size probe and a one-shot `?download=1` retry), extract text,
summarize, translate, email, and persist the processed URL.

Network I/O, the PDF libraries, sumy, deep-translator and smtplib are external
collaborators; each is modelled as a function field of `WEnv` (the per-run
environment).  Everything written in `weekly_agent.py` itself is translated
definition-by-definition below.  `none` in a network-response position models
`requests.RequestException`; `Except.error` models an uncaught Python
exception.
-/

namespace WeeklyAgent

/-- Model of Python `str.strip()` (whitespace differences at the Unicode
fringe are irrelevant to every claim). -/
def pyStrip (s : String) : String :=
  String.mk (((s.data.dropWhile Char.isWhitespace).reverse.dropWhile Char.isWhitespace).reverse)

/-- Model of Python `str.lower()` (ASCII case folding; the agent only
lowercases header values and anchor text where non-ASCII case is
irrelevant to every claim). -/
def pyLower (s : String) : String :=
  String.mk (s.data.map (fun c => if 'A' ≤ c ∧ c ≤ 'Z' then Char.ofNat (c.toNat + 32) else c))

/-- Substring containment on char lists: `needle` occurs contiguously in
`hay`.  Models Python's `needle in hay` for strings. -/
def listContains (hay needle : List Char) : Bool :=
  match hay with
  | [] => needle.isEmpty
  | _ :: t => needle.isPrefixOf hay || listContains t needle

/-- Models Python `needle in hay` on strings. -/
def strContains (hay needle : String) : Bool :=
  listContains hay.data needle.data

/-- Accumulator pass of decimal-digit parsing; fails on a non-digit. -/
def digitsValGo (acc : Nat) : List Char → Option Nat
  | [] => some acc
  | c :: cs => if c.isDigit then digitsValGo (acc * 10 + (c.toNat - 48)) cs else none

/-- Parse a non-empty all-digit char list to its value. -/
def digitsVal (cs : List Char) : Option Nat :=
  match cs with
  | [] => none
  | _ => digitsValGo 0 cs

/-- Value of a char list that is already known to be all digits. -/
def valOfDigits (cs : List Char) : Nat :=
  cs.foldl (fun a c => a * 10 + (c.toNat - 48)) 0

/-- Model of Python `int(s)` for a string: strip whitespace, optional sign,
decimal digits; `none` models the `ValueError` raise.  (Python additionally
accepts `_` digit separators and non-ASCII digits; no claim depends on
those inputs.) -/
def pyInt? (s : String) : Option Int :=
  match (pyStrip s).data with
  | '+' :: ds => (digitsVal ds).map (fun n => (n : Int))
  | '-' :: ds => (digitsVal ds).map (fun n => -(n : Int))
  | ds => (digitsVal ds).map (fun n => (n : Int))

/-- Model of Python `s.isdigit()` (restricted to ASCII digits, which is all
the agent ever feeds it). -/
def pyIsDigit (s : String) : Bool :=
  !s.data.isEmpty && s.data.all Char.isDigit

/-- An uncaught Python exception that can escape the functions we model.
The only such raise reachable in the locator is `int()`'s `ValueError`. -/
inductive PyError where
  | valueError (s : String)
deriving Repr, DecidableEq

/-- A calendar date, as carried by Python `datetime.date` /
`datetime.datetime` (midnight). -/
structure Date where
  year : Int
  month : Nat
  day : Nat
deriving Repr, DecidableEq

/-- Days since 1970-01-01 of a civil date (standard civil-from/to-days
arithmetic; models Python `datetime.date.toordinal` up to a constant
offset, hence `timedelta` arithmetic exactly). -/
def daysFromCivil (dte : Date) : Int :=
  let y : Int := if dte.month ≤ 2 then dte.year - 1 else dte.year
  let era : Int := (if 0 ≤ y then y else y - 399) / 400
  let yoe : Int := y - era * 400
  let mp : Nat := (dte.month + 9) % 12
  let doy : Int := (153 * (mp : Int) + 2) / 5 + (dte.day : Int) - 1
  let doe : Int := yoe * 365 + yoe / 4 - yoe / 100 + doy
  era * 146097 + doe - 719468

/-- Inverse of `daysFromCivil`. -/
def civilFromDays (z0 : Int) : Date :=
  let z : Int := z0 + 719468
  let era : Int := (if 0 ≤ z then z else z - 146096) / 146097
  let doe : Int := z - era * 146097
  let yoe : Int := (doe - doe / 1460 + doe / 36524 - doe / 146096) / 365
  let y : Int := yoe + era * 400
  let doy : Int := doe - (365 * yoe + yoe / 4 - yoe / 100)
  let mp : Int := (5 * doy + 2) / 153
  let d : Int := doy - (153 * mp + 2) / 5 + 1
  let m : Int := mp + (if mp < 10 then 3 else -9)
  ⟨(if m ≤ 2 then y + 1 else y), m.toNat, d.toNat⟩

/-- `date + timedelta(days=n)` (n may be negative). -/
def dateAddDays (dte : Date) (n : Int) : Date :=
  civilFromDays (daysFromCivil dte + n)

/-- ISO weekday, 1 = Monday .. 7 = Sunday. -/
def isoWeekday (z : Int) : Int := (z + 3) % 7 + 1

/-- `(ISO year, ISO week number)` of a date; models the first two components
of Python `date.isocalendar()`: the ISO week of a day is the week of its
Thursday. -/
def isoYearWeek (dte : Date) : Int × Int :=
  let z := daysFromCivil dte
  let thu := z + (4 - isoWeekday z)
  let td := civilFromDays thu
  let jan1 := daysFromCivil ⟨td.year, 1, 1⟩
  (td.year, (thu - jan1) / 7 + 1)

/-- Gregorian leap year, as used by `datetime`. -/
def isLeap (y : Int) : Bool :=
  decide (y % 4 = 0 ∧ (y % 100 ≠ 0 ∨ y % 400 = 0))

/-- Length of a month. -/
def daysInMonth (y : Int) (m : Nat) : Nat :=
  if m = 2 then (if isLeap y then 29 else 28)
  else if m = 4 ∨ m = 6 ∨ m = 9 ∨ m = 11 then 30
  else 31

/-- Whether `datetime.datetime(year, month, day)` succeeds (else it raises
`ValueError`, which `_scan_listing_page` catches). -/
def dtValid (y : Int) (m d : Nat) : Bool :=
  decide (1 ≤ y ∧ y ≤ 9999 ∧ 1 ≤ m ∧ m ≤ 12 ∧ 1 ≤ d) && decide (d ≤ daysInMonth y m)

/-- What a `session.head(url, ...)` reply exposes to the agent: status code
and the two headers it reads.  `contentLength` is the raw header string
(`none` when the header is absent, matching `headers.get`). -/
structure HeadResponse where
  status : Nat
  contentType : String
  contentLength : Option String
deriving Repr, DecidableEq

/-- The network as the agent sees it for header probes: the reply to
`session.head(url)`, with `none` modelling `requests.RequestException`. -/
abbrev HeadFn := String → Option HeadResponse

/-- English month names, `months_en` in `_try_direct_weekly_pdf`. -/
def monthsEn : List String :=
  ["january", "february", "march", "april", "may", "june",
   "july", "august", "september", "october", "november", "december"]

/-- The candidate URL that `_try_direct_weekly_pdf` builds for a given
`days_back`: the f-string
`...communicable-disease-threats-report-{day}-{month}-{year}-week-{week_num}`
where the date is `today - timedelta(days=days_back)` and
`week_num = current_week - days_back // 7`. -/
def directCandidateUrl (today : Date) (curWeek : Int) (daysBack : Nat) : String :=
  let target := dateAddDays today (-(daysBack : Int))
  let d := target.day
  let mo := monthsEn.getD (target.month - 1) ""
  let y := target.year
  let w : Int := curWeek - (daysBack / 7 : Nat)
  s!"https://www.ecdc.europa.eu/en/publications-data/communicable-disease-threats-report-{d}-{mo}-{y}-week-{w}"

/-- The acceptance test `_try_direct_weekly_pdf` runs on a HEAD reply:
`status == 200 and ("html" in ct or "pdf" in ct) and int(content_length) > 10000`
with `ct = Content-Type.lower()` and `content_length = headers.get("Content-Length", "0")`.
Python's `and` short-circuits, so `int()` — whose `ValueError` is NOT caught
by the surrounding `except requests.RequestException` — only runs once the
first two conjuncts hold. -/
def acceptHead (r : HeadResponse) : Except PyError Bool :=
  let ct := pyLower r.contentType
  let cl := r.contentLength.getD "0"
  if r.status = 200 ∧ (strContains ct "html" ∨ strContains ct "pdf") then
    match pyInt? cl with
    | none => .error (.valueError cl)
    | some n => .ok (decide (n > 10000))
  else .ok false

/-- One probe of the direct-guess loop: a `RequestException` (`none`) is
absorbed (`continue`), otherwise the reply is run through `acceptHead`. -/
def probeStep (head : HeadFn) (url : String) : Except PyError Bool :=
  match head url with
  | none => .ok false
  | some r => acceptHead r

/-- The `for days_back in range(0, 35)` loop of `_try_direct_weekly_pdf`:
`fuel` counts the remaining iterations and `daysBack` the current loop
index, so the body runs for `days_back = daysBack, …, daysBack + fuel - 1`.
First accepted candidate wins; exhausting the window yields `none`. -/
def tryDirectLoop (head : HeadFn) (today : Date) (curWeek : Int) :
    Nat → Nat → Except PyError (Option String)
  | _, 0 => .ok none
  | daysBack, fuel + 1 =>
    match probeStep head (directCandidateUrl today curWeek daysBack) with
    | .error e => .error e
    | .ok true => .ok (some (directCandidateUrl today curWeek daysBack))
    | .ok false => tryDirectLoop head today curWeek (daysBack + 1) fuel

/-- `WeeklyReportAgent._try_direct_weekly_pdf` (Plan A): walk back from
today over 35 days (5 weeks), probing the templated URL for each date. -/
def tryDirectWeeklyPdf (head : HeadFn) (today : Date) : Except PyError (Option String) :=
  tryDirectLoop head today (isoYearWeek today).2 0 35

/-- The configuration dataclass (`Config`), restricted to the fields the
modelled pipeline reads.  `pdf_regex` and `direct_pdf_template` are declared
in the source but never used by any code path, and the log level only
affects logging. -/
structure Config where
  baseUrl : String := "https://www.ecdc.europa.eu/en/publications-data/weekly-threat-reports"
  summarySentences : Int := 12
  smtpServer : String := ""
  senderEmail : String := ""
  receiverEmail : String := ""
  dryRun : Bool := false
  maxPdfMb : Nat := 25
deriving Repr, DecidableEq

/-- One `<a href=...>` element of the listing page, as BeautifulSoup hands
it to the scan loop: the `href` attribute and `get_text()`. -/
structure Link where
  href : String
  text : String
deriving Repr, DecidableEq

/-- `re.search(r"(\d{1,2})\s+([a-z]+)\s+(\d{4})", text)`, tail of the
pattern after the day group: `\s+ ([a-z]+) \s+ (\d{4})`.  The three
character classes are pairwise disjoint, so greedy maximal munch is exact. -/
def matchDateTail (dayVal : Nat) (rest : List Char) : Option (Nat × String × Nat) :=
  let ws1 := rest.takeWhile Char.isWhitespace
  if ws1.isEmpty then none else
  let r1 := rest.drop ws1.length
  let ls := r1.takeWhile Char.isLower
  if ls.isEmpty then none else
  let r2 := r1.drop ls.length
  let ws2 := r2.takeWhile Char.isWhitespace
  if ws2.isEmpty then none else
  let r3 := r2.drop ws2.length
  let ds := r3.takeWhile Char.isDigit
  if ds.length < 4 then none
  else some (dayVal, String.mk ls, valOfDigits (ds.take 4))

/-- Try the date pattern anchored at the head of `cs`: the day group
`(\d{1,2})` is greedy, so two digits are tried before one. -/
def matchDateAt (cs : List Char) : Option (Nat × String × Nat) :=
  let ds := cs.takeWhile Char.isDigit
  let try2 :=
    if 2 ≤ ds.length then matchDateTail (valOfDigits (ds.take 2)) (cs.drop 2) else none
  match try2 with
  | some r => some r
  | none =>
    if 1 ≤ ds.length then matchDateTail (valOfDigits (ds.take 1)) (cs.drop 1) else none

/-- `re.search` of the date pattern over the link text: first position with
a match wins. -/
def searchDate : List Char → Option (Nat × String × Nat)
  | [] => none
  | c :: rest =>
    match matchDateAt (c :: rest) with
    | some r => some r
    | none => searchDate rest

/-- The `months` name→number dict in `_scan_listing_page`. -/
def monthNum (s : String) : Option Nat :=
  if s = "january" then some 1
  else if s = "february" then some 2
  else if s = "march" then some 3
  else if s = "april" then some 4
  else if s = "may" then some 5
  else if s = "june" then some 6
  else if s = "july" then some 7
  else if s = "august" then some 8
  else if s = "september" then some 9
  else if s = "october" then some 10
  else if s = "november" then some 11
  else if s = "december" then some 12
  else none

/-- Chronological order on `datetime` values (equal to lexicographic order
on (year, month, day), which is how Python compares them). -/
def dtLeP (a b : Date) : Prop :=
  a.year < b.year ∨
    (a.year = b.year ∧ (a.month < b.month ∨ (a.month = b.month ∧ a.day ≤ b.day)))

instance : DecidableRel dtLeP := fun a b => by unfold dtLeP; infer_instance

/-- Sort relation used to model `candidates.sort(key=lambda x: x[0],
reverse=True)`: `a` may precede `b` when `a`'s date is `≥` `b`'s.
Python's sort is stable; so is `List.insertionSort`, and any two stable
sorts of the same list agree. -/
def candR (a b : Date × String) : Prop := dtLeP b.1 a.1

instance : DecidableRel candR := fun a b => by unfold candR; infer_instance

/-- Body of the `for link in soup.find_all("a", href=True)` loop of
`_scan_listing_page`, producing the candidate this link contributes, if any:
non-empty href, absolutized via `urljoin` (an external library function,
hence a parameter), anchor text mentioning the report series and "week",
a HEAD existence check answering 200, a parsable date in the text, a known
month name, and a date `datetime` accepts.  Every failure — including the
caught `RequestException` and `ValueError` — just skips the link. -/
def processLink (head : HeadFn) (ujoin : String → String → String)
    (cfg : Config) (l : Link) : Option (Date × String) :=
  if l.href = "" then none
  else
    let href := if "http".data.isPrefixOf l.href.data then l.href else ujoin cfg.baseUrl l.href
    let t := pyLower l.text
    if strContains t "communicable disease threats report" ∧ strContains t "week" then
      match head href with
      | none => none
      | some r =>
        if r.status = 200 then
          match searchDate t.data with
          | none => none
          | some (d, ms, y) =>
            match monthNum ms with
            | none => none
            | some m =>
              if dtValid (y : Int) m d then some (⟨(y : Int), m, d⟩, href) else none
        else none
    else none

/-- The candidate set accumulated by the scan loop, in page order. -/
def listingCandidates (head : HeadFn) (ujoin : String → String → String)
    (cfg : Config) (links : List Link) : List (Date × String) :=
  links.filterMap (processLink head ujoin cfg)

/-- `candidates.sort(key=lambda x: x[0], reverse=True)` followed by
`candidates[0]`: stable descending sort by date, take the head.  Python's
list sort is stable and so is insertion sort, and two stable sorts of one
list coincide. -/
def pickLatest (cands : List (Date × String)) : Option String :=
  match cands with
  | [] => none
  | _ => (List.insertionSort candR cands).head?.map (fun c => c.2)

/-- `WeeklyReportAgent._scan_listing_page` (Plan B).  `listing` is the
outcome of `session.get(config.base_url)` + BeautifulSoup link extraction:
`none` models a `RequestException` (including `raise_for_status`), `some
links` the anchor elements found. -/
def scanListingPage (head : HeadFn) (ujoin : String → String → String)
    (cfg : Config) (listing : Option (List Link)) : Option String :=
  match listing with
  | none => none
  | some links => pickLatest (listingCandidates head ujoin cfg links)

/-- The hardcoded `alternative_urls` of `_try_alternative_urls`. -/
def alternativeUrls : List String :=
  ["https://www.ecdc.europa.eu/en/publications-data/communicable-disease-threats-report-23-29-august-2024-week-35",
   "https://www.ecdc.europa.eu/en/publications-data/communicable-disease-threats-report-16-22-august-2024-week-34",
   "https://www.ecdc.europa.eu/en/publications-data/communicable-disease-threats-report-9-15-august-2024-week-33",
   "https://www.ecdc.europa.eu/sites/default/files/documents/communicable-disease-threats-report-2024-w34.pdf"]

/-- `WeeklyReportAgent._try_alternative_urls` (emergency plan): first
hardcoded URL whose HEAD answers 200; a `RequestException` skips the URL. -/
def tryAlternativeUrls (head : HeadFn) : Option String :=
  alternativeUrls.findSome? (fun u =>
    match head u with
    | none => none
    | some r => if r.status = 200 then some u else none)

/-- Which locator strategies a run actually invoked, in order. -/
inductive Strat where
  | direct
  | listing
  | fallback
deriving Repr, DecidableEq

/-- `WeeklyReportAgent.fetch_latest_pdf_url`, instrumented with the list of
strategies invoked: Plan A, else Plan B, else the emergency list.  An
uncaught exception from Plan A propagates. -/
def fetchLatestPdfUrlT (head : HeadFn) (ujoin : String → String → String)
    (cfg : Config) (today : Date) (listing : Option (List Link)) :
    Except PyError (Option String) × List Strat :=
  match tryDirectWeeklyPdf head today with
  | .error e => (.error e, [.direct])
  | .ok (some u) => (.ok (some u), [.direct])
  | .ok none =>
    match scanListingPage head ujoin cfg listing with
    | some u => (.ok (some u), [.direct, .listing])
    | none => (.ok (tryAlternativeUrls head), [.direct, .listing, .fallback])

/-- `WeeklyReportAgent.fetch_latest_pdf_url`: the returned URL (or
propagated exception). -/
def fetchLatestPdfUrl (head : HeadFn) (ujoin : String → String → String)
    (cfg : Config) (today : Date) (listing : Option (List Link)) :
    Except PyError (Option String) :=
  (fetchLatestPdfUrlT head ujoin cfg today listing).1

/-- What a streamed `session.get(url, ...)` exposes to `_try_get`: the
Content-Type header and the body chunks of `iter_content` (bytes as `Nat`s).
`first` in the source is the first chunk; all chunks are written to the
destination file, which `open(dest, "wb")` truncates first. -/
structure GetResponse where
  contentType : String
  chunks : List (List Nat)
deriving Repr, DecidableEq

/-- The network for body downloads: reply to `session.get(url)`, `none`
modelling a `requests.RequestException` (connection error or
`raise_for_status`; both are raised before the file is written). -/
abbrev GetFn := String → Option GetResponse

/-- Bytes `_try_get` writes to the destination for this response. -/
def writtenBytes (r : GetResponse) : List Nat := r.chunks.flatten

/-- The `first` chunk handed to `_looks_like_pdf`. -/
def firstBytes (r : GetResponse) : List Nat := (r.chunks.head?).getD []

/-- `b"%PDF"`. -/
def pdfMagic : List Nat := [37, 80, 68, 70]

/-- The combined validation of a download attempt:
`("pdf" in (content_type or "").lower()) and _looks_like_pdf(first)`. -/
def pdfValid (r : GetResponse) : Bool :=
  strContains (pyLower r.contentType) "pdf" && pdfMagic.isPrefixOf (firstBytes r)

/-- `_append_download_param`. -/
def appendDownloadParam (url : String) : String :=
  url ++ (if strContains url "?" then "&download=1" else "?download=1")

/-- Terminal failures of `download_pdf`. -/
inductive DlError where
  /-- the `RuntimeError` raised when the probed size exceeds the limit -/
  | sizeExceeded (declared : Int)
  /-- the final `RuntimeError`, carrying the observed Content-Type and the
  first bytes of the second attempt (`first2[:8]`) -/
  | notPdf (contentType : String) (sig : List Nat)
  /-- an uncaught `requests.RequestException` from the second GET -/
  | network
  /-- the uncaught `ValueError` if the probe's Content-Length does not parse -/
  | valueErrorProbe
deriving Repr, DecidableEq

deriving instance DecidableEq for Except

/-- Outcome of `download_pdf`: the control-flow result, the final content of
the destination file (`none` = never opened, i.e. zero bytes written), and
the GET requests issued, in order. -/
structure DlOut where
  result : Except DlError Unit
  file : Option (List Nat)
  gets : List String
deriving Repr, DecidableEq

/-- Step 1 of `download_pdf`: the optional HEAD probe.  A
`RequestException` is swallowed (`except ...: pass`); a declared size above
`max_mb` MB raises `RuntimeError` — raised inside the `try`, but the
`except` clause only catches `RequestException`, so it escapes.  Note the
truthiness guard: an absent header or empty string skips the check, a
non-empty non-numeric value makes `int()` raise. -/
def probeCheck (head : HeadFn) (pdfUrl : String) (maxMb : Nat) : Except DlError Unit :=
  match head pdfUrl with
  | none => .ok ()
  | some r =>
    match r.contentLength with
    | none => .ok ()
    | some s =>
      if s = "" then .ok ()
      else
        match pyInt? s with
        | none => .error .valueErrorProbe
        | some n => if n > (maxMb : Int) * 1024 * 1024 then .error (.sizeExceeded n) else .ok ()

/-- Steps 2–4 of `download_pdf`: the first GET, its validation, the single
retry with the download parameter, and the final `RuntimeError`.  A
`RequestException` in the first GET (modelled as writing nothing) also
falls through to the retry; one in the second GET propagates. -/
def downloadAttempts (get : GetFn) (pdfUrl : String) : DlOut :=
  let retryUrl := appendDownloadParam pdfUrl
  let second : Option (List Nat) → DlOut := fun file1 =>
    match get retryUrl with
    | none => ⟨.error .network, file1, [pdfUrl, retryUrl]⟩
    | some r2 =>
      if pdfValid r2 then ⟨.ok (), some (writtenBytes r2), [pdfUrl, retryUrl]⟩
      else ⟨.error (.notPdf r2.contentType ((firstBytes r2).take 8)),
            some (writtenBytes r2), [pdfUrl, retryUrl]⟩
  match get pdfUrl with
  | none => second none
  | some r1 =>
    if pdfValid r1 then ⟨.ok (), some (writtenBytes r1), [pdfUrl]⟩
    else second (some (writtenBytes r1))

/-- `WeeklyReportAgent.download_pdf`. -/
def downloadPdf (head : HeadFn) (get : GetFn) (pdfUrl : String) (maxMb : Nat) : DlOut :=
  match probeCheck head pdfUrl maxMb with
  | .error e => ⟨.error e, none, []⟩
  | .ok () => downloadAttempts get pdfUrl

/-- The message handed to the SMTP transport. -/
structure EmailMsg where
  subject : String
  plain : String
  html : String
deriving Repr, DecidableEq

/-- The external collaborators of one pipeline run, plus the ambient
effects the source reads (`date.today()`, `time.time()`,
`datetime.utcnow()`, `os.getenv`):
* `head` / `get` — the HTTP session;
* `listing` — result of fetching and soup-parsing the listing page;
* `ujoin` — `requests.compat.urljoin` (library code, uninterpreted);
* `extract` — the Extractor capability (`extract_text`: pdfplumber with
  pdfminer fallback, which catches everything internally and returns a
  string, possibly empty) applied to the downloaded file bytes;
* `summ` — the sumy LexRank engine (parser + tokenizer + summarizer) for a
  text and a sentence count; `.error` models a raise out of sumy;
* `gt` — `GoogleTranslator(...).translate` when deep-translator imported
  (`none` models `GoogleTranslator is None`); `.error` models a raise,
  which `translate_to_spanish` catches;
* `send` — the SMTP_SSL dance of `send_email`; `.error` models a raise
  (connection, login, send). -/
structure WEnv where
  today : Date
  head : HeadFn
  get : GetFn
  listing : Option (List Link)
  ujoin : String → String → String
  extract : List Nat → String
  summ : String → Int → Except String String
  gt : Option (String → Except String String)
  send : EmailMsg → Except String Unit
  ssEnv : Option String
  timeNow : Int
  nowStr : String

/-- The persisted run state, `.agent_state.json`:
`{"last_url": ..., "timestamp": ...}`. -/
structure StateRec where
  lastUrl : String
  timestamp : Int
deriving Repr, DecidableEq

/-- `WeeklyReportAgent._get_last_processed_url`: the `last_url` field of the
state file; a missing or unreadable file yields `None`. -/
def getLastProcessedUrl (st : Option StateRec) : Option String :=
  st.map (fun s => s.lastUrl)

/-- `WeeklyReportAgent.summarize`, instrumented with the sentence count
actually handed to the LexRank engine (`none` = engine never invoked):
empty/whitespace-only text short-circuits to `""`; otherwise the count is
clamped by `sentences = max(1, sentences)`.  An `.error` models a raise
from sumy propagating out of `summarize`. -/
def summarizeT (env : WEnv) (text : String) (sentences : Int) :
    Except String (String × Option Int) :=
  if pyStrip text = "" then .ok ("", none)
  else
    let s := max 1 sentences
    match env.summ text s with
    | .ok out => .ok (out, some s)
    | .error e => .error e

/-- `WeeklyReportAgent.translate_to_spanish`: empty text and an absent
translator pass through; a translator raise is caught and the original
text returned. -/
def translateToSpanish (env : WEnv) (text : String) : String :=
  if pyStrip text = "" then text
  else
    match env.gt with
    | none => text
    | some tr =>
      match tr text with
      | .ok res => res
      | .error _ => text

/-- `WeeklyReportAgent.build_html`: the HTML body template, with the
summary, the report URL (twice) and the UTC timestamp interpolated, then
`.strip()`ed. -/
def buildHtml (env : WEnv) (summaryEs pdfUrl : String) : String :=
  let ts := env.nowStr
  pyStrip s!"
        <html>
          <body style=\"font-family:Arial,Helvetica,sans-serif;line-height:1.5;background:#f7f7f7;padding:18px;\">
            <table width=\"100%\" cellpadding=\"0\" cellspacing=\"0\" style=\"max-width:680px;margin:auto;background:#ffffff;border-radius:8px;overflow:hidden;\">
              <tr>
                <td style=\"background:#005ba4;color:#fff;padding:18px 20px;\">
                  <h1 style=\"margin:0;font-size:22px;\">Boletín semanal de amenazas sanitarias</h1>
                  <p style=\"margin:6px 0 0 0;font-size:14px;opacity:.9;\">Resumen automático del informe ECDC</p>
                </td>
              </tr>
              <tr>
                <td style=\"padding:20px;font-size:15px;color:#222;\">
                  <p style=\"margin-top:0;white-space:pre-wrap\">{summaryEs}</p>
                  <p style=\"margin-top:18px\">
                    Enlace al informe:&nbsp;
                    <a href=\"{pdfUrl}\" style=\"color:#005ba4;text-decoration:underline\">{pdfUrl}</a>
                  </p>
                </td>
              </tr>
              <tr>
                <td style=\"background:#f0f0f0;color:#666;padding:12px 16px;text-align:center;font-size:12px;\">
                  Generado automáticamente · {ts}
                </td>
              </tr>
            </table>
          </body>
        </html>
        "

/-- `WeeklyReportAgent.send_email`: the two `ValueError` guards, the
`or \"(vacío)\"` plain-body default, then the SMTP transport. -/
def sendEmail (env : WEnv) (cfg : Config) (subject plain html : String) :
    Except String Unit :=
  if cfg.senderEmail = "" ∨ cfg.receiverEmail = "" then
    .error "Faltan SENDER_EMAIL o RECEIVER_EMAIL."
  else if cfg.smtpServer = "" then
    .error "Falta SMTP_SERVER."
  else
    env.send ⟨subject, (if plain = "" then "(vacío)" else plain), html⟩

/-- The subject line used by `run`. -/
def emailSubject : String := "Resumen del informe semanal del ECDC"

/-- The effective sentence count: `SUMMARY_SENTENCES` overrides the config
when present, truthy and `strip().isdigit()`. -/
def sentencesOf (env : WEnv) (cfg : Config) : Int :=
  match env.ssEnv with
  | some s =>
    if s ≠ "" ∧ pyIsDigit (pyStrip s) then ((digitsVal (pyStrip s).data).getD 0 : Nat)
    else cfg.summarySentences
  | none => cfg.summarySentences

/-- Terminal status of one `run` invocation (each corresponds to one
`return` point or fall-through of `WeeklyReportAgent.run`). -/
inductive RunStatus where
  | missingConfig
  | noDocument
  | alreadyProcessed
  | fetchFailed
  | extractionEmpty
  | condenseFailed
  | condensationEmpty
  | dryRunDone
  | notifyFailed
  | success
deriving Repr, DecidableEq

/-- Observable side effects of one run, in order: the Fetcher being
invoked, a notification delivery attempt, the state file being written. -/
inductive RunEff where
  | fetch (url : String)
  | notify (subject plain html : String)
  | save (url : String)
deriving Repr, DecidableEq

/-- Result of one `run` invocation: terminal status, the state file
afterwards, and the effect trace. -/
structure RunOut where
  status : RunStatus
  state : Option StateRec
  effs : List RunEff
deriving Repr, DecidableEq

/-- `WeeklyReportAgent.run`, over initial state `st0`
(`.agent_state.json`, or `none` when absent/corrupt).  Stage order and
every early `return` follow the source; `.error` propagates the locator's
uncaught `ValueError`.  The `try` around `extract_text` and
`translate_to_spanish` is dead in the model because both absorb their
failures internally, exactly as in the source; `_save_processed_url`'s own
`except: pass` (a silently failing state write) is modelled as a successful
write. -/
def run (env : WEnv) (cfg : Config) (st0 : Option StateRec) :
    Except PyError RunOut :=
  if cfg.smtpServer = "" ∨ cfg.senderEmail = "" ∨ cfg.receiverEmail = "" then
    .ok ⟨.missingConfig, st0, []⟩
  else
    let sentences := sentencesOf env cfg
    match fetchLatestPdfUrl env.head env.ujoin cfg env.today env.listing with
    | .error e => .error e
    | .ok none => .ok ⟨.noDocument, st0, []⟩
    | .ok (some pdfUrl) =>
      if getLastProcessedUrl st0 = some pdfUrl then
        .ok ⟨.alreadyProcessed, st0, []⟩
      else
        match downloadPdf env.head env.get pdfUrl cfg.maxPdfMb with
        | ⟨.error _, _, _⟩ => .ok ⟨.fetchFailed, st0, [.fetch pdfUrl]⟩
        | ⟨.ok (), file, _⟩ =>
          let text := env.extract (file.getD [])
          if pyStrip text = "" then .ok ⟨.extractionEmpty, st0, [.fetch pdfUrl]⟩
          else
            match summarizeT env text sentences with
            | .error _ => .ok ⟨.condenseFailed, st0, [.fetch pdfUrl]⟩
            | .ok (summaryEn, _) =>
              if pyStrip summaryEn = "" then .ok ⟨.condensationEmpty, st0, [.fetch pdfUrl]⟩
              else
                let summaryEs := translateToSpanish env summaryEn
                let html := buildHtml env summaryEs pdfUrl
                if cfg.dryRun then .ok ⟨.dryRunDone, st0, [.fetch pdfUrl]⟩
                else
                  match sendEmail env cfg emailSubject summaryEs html with
                  | .error _ =>
                    .ok ⟨.notifyFailed, st0,
                         [.fetch pdfUrl, .notify emailSubject summaryEs html]⟩
                  | .ok () =>
                    .ok ⟨.success, some ⟨pdfUrl, env.timeNow⟩,
                         [.fetch pdfUrl, .notify emailSubject summaryEs html,
                          .save pdfUrl]⟩

/-! ## Concrete fixtures (used to exercise the theorems on closed inputs) -/

/-- 2024-08-23, a Friday in ISO week 34 of 2024. -/
def todayW : Date := ⟨2024, 8, 23⟩

/-- The candidate URL the direct-guess strategy builds for `todayW` at
`days_back = 0`. -/
def urlW : String :=
  "https://www.ecdc.europa.eu/en/publications-data/communicable-disease-threats-report-23-august-2024-week-34"

/-- A network answering every HEAD with a plausible report-page reply. -/
def headAccept : HeadFn := fun _ => some ⟨200, "application/pdf", some "50000"⟩

/-- A network whose HEAD replies are 200/html with a malformed
Content-Length header. -/
def headBad : HeadFn := fun _ => some ⟨200, "text/html", some "abc"⟩

/-- A network where every request raises `RequestException`. -/
def headDown : HeadFn := fun _ => none

/-- A network answering 200 with an over-sized declared Content-Length. -/
def headBig : HeadFn := fun _ => some ⟨200, "application/pdf", some "999999999"⟩

/-- `urljoin` stand-in for fixtures. -/
def ujoinW : String → String → String := fun _ href => href

/-- A GET answering a small valid PDF for every URL. -/
def getPdf : GetFn := fun _ => some ⟨"application/pdf", [[37, 80, 68, 70, 49, 50]]⟩

/-- A GET serving an HTML interstitial for one document URL and for its
force-download variant. -/
def getBadW : GetFn := fun u =>
  if u = "https://x.example/doc" then some ⟨"text/html", [[60, 104, 116]]⟩
  else if u = "https://x.example/doc?download=1" then some ⟨"text/html", [[60, 98]]⟩
  else none

/-- A fully healthy environment: the first direct guess is accepted, the
download validates, extraction and condensation produce text, the
translator library is absent, the transport accepts the message. -/
def envW : WEnv where
  today := todayW
  head := headAccept
  get := getPdf
  listing := none
  ujoin := ujoinW
  extract := fun _ => "Outbreak update. Cases rising."
  summ := fun _ _ => .ok "Outbreak update."
  gt := none
  send := fun _ => .ok ()
  ssEnv := none
  timeNow := 1724400000
  nowStr := "2024-08-23 09:00 UTC"

/-- `envW` with a translator that raises. -/
def envTransFail : WEnv := { envW with gt := some (fun _ => .error "api down") }

/-- A configuration with full SMTP settings. -/
def cfgW : Config :=
  { smtpServer := "smtp.example.org"
    senderEmail := "from@example.org"
    receiverEmail := "to@example.org" }

/-- `cfgW` in dry-run mode. -/
def cfgDry : Config := { cfgW with dryRun := true }

/-- Prior state naming a different URL. -/
def stOld : Option StateRec := some ⟨"https://old.example/report", 1000⟩

/-- Prior state naming exactly `urlW`. -/
def stSame : Option StateRec := some ⟨urlW, 1000⟩

/-- Listing-page links: the lexically larger URL carries the older
publication date, so date order and URL order disagree. -/
def linksW : List Link :=
  [⟨"https://z.example/r1", "Communicable Disease Threats Report, 5 January 2024, week 1"⟩,
   ⟨"https://a.example/r2", "Communicable Disease Threats Report, 1 March 2024, week 9"⟩]

/-! ## Helper lemmas -/

theorem dtLeP_total (a b : Date) : dtLeP a b ∨ dtLeP b a := by
  unfold dtLeP; omega

theorem dtLeP_trans {a b c : Date} (h1 : dtLeP a b) (h2 : dtLeP b c) : dtLeP a c := by
  unfold dtLeP at *; omega

instance : IsTotal (Date × String) candR :=
  ⟨fun a b => (dtLeP_total b.1 a.1).elim .inl .inr⟩

instance : IsTrans (Date × String) candR :=
  ⟨fun _ _ _ h1 h2 => dtLeP_trans h2 h1⟩

theorem dtLeP_refl (a : Date) : dtLeP a a := by unfold dtLeP; omega

/-- `pickLatest` of a non-empty candidate list returns the URL of a
candidate whose date is maximal. -/
theorem pickLatest_spec (cands : List (Date × String)) (url : String)
    (h : pickLatest cands = some url) :
    ∃ best, best ∈ cands ∧ best.2 = url ∧ ∀ c ∈ cands, dtLeP c.1 best.1 := by
  match hc : cands with
  | [] => simp [pickLatest] at h
  | c0 :: rest =>
    unfold pickLatest at h
    match hs : List.insertionSort candR (c0 :: rest) with
    | [] =>
      have := List.perm_insertionSort candR (c0 :: rest)
      rw [hs] at this
      exact absurd this.symm (by simp)
    | best :: sorted =>
      rw [hs] at h
      simp only [List.head?, Option.map_some] at h
      refine ⟨best, ?_, by simpa using h, ?_⟩
      · have := List.perm_insertionSort candR (c0 :: rest)
        rw [hs] at this
        exact this.mem_iff.mp (by simp)
      · intro c hcmem
        have hsorted := List.sorted_insertionSort candR (c0 :: rest)
        rw [hs] at hsorted
        have hmem : c ∈ best :: sorted := by
          have := List.perm_insertionSort candR (c0 :: rest)
          rw [hs] at this
          exact this.symm.mem_iff.mp hcmem
        rcases List.mem_cons.mp hmem with rfl | htail
        · exact dtLeP_refl _
        · exact List.rel_of_sorted_cons hsorted _ htail

/-- Characterization of the direct-guess loop: it returns a URL iff some
index in the window is accepted and all earlier indices are rejected
(where a rejected probe is a `RequestException` or a failed acceptance
test, not a raise). -/
theorem tryDirectLoop_some_iff (head : HeadFn) (today : Date) (curWeek : Int) :
    ∀ fuel daysBack url,
      tryDirectLoop head today curWeek daysBack fuel = .ok (some url) ↔
        ∃ k, daysBack ≤ k ∧ k < daysBack + fuel ∧
          url = directCandidateUrl today curWeek k ∧
          probeStep head (directCandidateUrl today curWeek k) = .ok true ∧
          ∀ j, daysBack ≤ j → j < k →
            probeStep head (directCandidateUrl today curWeek j) = .ok false := by
  intro fuel
  induction fuel with
  | zero =>
    intro daysBack url
    simp only [tryDirectLoop]
    constructor
    · intro h; simp at h
    · rintro ⟨k, h1, h2, -⟩; omega
  | succ fuel ih =>
    intro daysBack url
    rw [tryDirectLoop]
    rcases hps : probeStep head (directCandidateUrl today curWeek daysBack) with e | b
    · constructor
      · intro h; simp at h
      · rintro ⟨k, hk1, hk2, hurl, hacc, hprev⟩
        rcases Nat.eq_or_lt_of_le hk1 with rfl | hlt
        · rw [hps] at hacc; simp at hacc
        · have := hprev daysBack le_rfl hlt
          rw [hps] at this; simp at this
    · cases b
      · constructor
        · intro h
          rcases (ih (daysBack + 1) url).mp h with ⟨k, hk1, hk2, hurl, hacc, hprev⟩
          refine ⟨k, by omega, by omega, hurl, hacc, fun j hj1 hj2 => ?_⟩
          rcases Nat.eq_or_lt_of_le hj1 with rfl | hlt
          · exact hps
          · exact hprev j hlt hj2
        · rintro ⟨k, hk1, hk2, hurl, hacc, hprev⟩
          rcases Nat.eq_or_lt_of_le hk1 with rfl | hlt
          · rw [hps] at hacc; simp at hacc
          · exact (ih (daysBack + 1) url).mpr
              ⟨k, hlt, by omega, hurl, hacc, fun j hj1 hj2 => hprev j (by omega) hj2⟩
      · constructor
        · intro h
          refine ⟨daysBack, le_rfl, by omega, by simpa using h.symm, hps, ?_⟩
          intro j hj1 hj2; omega
        · rintro ⟨k, hk1, hk2, hurl, hacc, hprev⟩
          rcases Nat.eq_or_lt_of_le hk1 with rfl | hlt
          · simp [hurl]
          · have := hprev daysBack le_rfl hlt
            rw [hps] at this; simp at this

/-- If no probe in the window raises, the loop does not raise. -/
theorem tryDirectLoop_no_error (head : HeadFn) (today : Date) (curWeek : Int) :
    ∀ fuel daysBack,
      (∀ k, daysBack ≤ k → k < daysBack + fuel →
        ∃ b, probeStep head (directCandidateUrl today curWeek k) = .ok b) →
      ∃ r, tryDirectLoop head today curWeek daysBack fuel = .ok r := by
  intro fuel
  induction fuel with
  | zero => intro daysBack _; exact ⟨none, rfl⟩
  | succ fuel ih =>
    intro daysBack hp
    rw [tryDirectLoop]
    rcases hps : probeStep head (directCandidateUrl today curWeek daysBack) with e | b
    · rcases hp daysBack le_rfl (by omega) with ⟨b, hb⟩
      rw [hps] at hb; simp at hb
    · cases b
      · exact ih (daysBack + 1) (fun k hk1 hk2 => hp k (by omega) (by omega))
      · exact ⟨some (directCandidateUrl today curWeek daysBack), rfl⟩

/-- The acceptance criterion of a direct-guess probe, unfolded. -/
theorem acceptHead_true_iff (r : HeadResponse) :
    acceptHead r = .ok true ↔
      r.status = 200 ∧
      (strContains (pyLower r.contentType) "html" = true ∨
        strContains (pyLower r.contentType) "pdf" = true) ∧
      ∃ n, pyInt? (r.contentLength.getD "0") = some n ∧ n > 10000 := by
  unfold acceptHead
  dsimp only
  split
  next h =>
    rcases hp : pyInt? (r.contentLength.getD "0") with _ | n
    · simp only [hp]
      constructor
      · intro hh; simp at hh
      · rintro ⟨-, -, n, hn, -⟩; simp [hp] at hn
    · simp only [hp]
      constructor
      · intro hh
        have : decide (n > 10000) = true := by simpa using hh
        exact ⟨h.1, by simpa using h.2, n, rfl, by simpa using this⟩
      · rintro ⟨-, -, m, hm, hgt⟩
        obtain rfl : n = m := by simpa using hm
        simp [hgt]
  next h =>
    constructor
    · intro hh; simp at hh
    · rintro ⟨h1, h2, -⟩
      exact absurd ⟨h1, by simpa using h2⟩ h

/-! ## Claim theorems -/

/-- C4: the three locator strategies (direct-guess, listing-scan,
fallback-list) are evaluated strictly in that order with short-circuit on
first success: when an earlier strategy returns a candidate URL no later
strategy is invoked, and the overall result is the first strategy's
non-`None` result. -/
theorem claim4_cascade_ordering (head : HeadFn) (ujoin : String → String → String)
    (cfg : Config) (today : Date) (listing : Option (List Link)) :
    (∀ u, tryDirectWeeklyPdf head today = .ok (some u) →
      fetchLatestPdfUrlT head ujoin cfg today listing = (.ok (some u), [.direct])) ∧
    (tryDirectWeeklyPdf head today = .ok none →
      ∀ u, scanListingPage head ujoin cfg listing = some u →
        fetchLatestPdfUrlT head ujoin cfg today listing =
          (.ok (some u), [.direct, .listing])) ∧
    (tryDirectWeeklyPdf head today = .ok none →
      scanListingPage head ujoin cfg listing = none →
        fetchLatestPdfUrlT head ujoin cfg today listing =
          (.ok (tryAlternativeUrls head), [.direct, .listing, .fallback])) := by
  refine ⟨fun u h => ?_, fun h u h2 => ?_, fun h h2 => ?_⟩
  · simp [fetchLatestPdfUrlT, h]
  · simp [fetchLatestPdfUrlT, h, h2]
  · simp [fetchLatestPdfUrlT, h, h2]

/-- C6: a probed Content-Length strictly above `max_mb` MB fails the fetch
immediately with a size-exceeded error and zero bytes written (no GET is
even issued); a network-level failure of the probe itself is non-fatal and
the download proceeds exactly as without the probe. -/
theorem claim6_size_guard :
    (∀ (head : HeadFn) (get : GetFn) (url : String) (maxMb : Nat)
        (r : HeadResponse) (s : String) (n : Int),
      head url = some r → r.contentLength = some s → s ≠ "" →
      pyInt? s = some n → n > (maxMb : Int) * 1024 * 1024 →
      downloadPdf head get url maxMb = ⟨.error (.sizeExceeded n), none, []⟩) ∧
    (∀ (head : HeadFn) (get : GetFn) (url : String) (maxMb : Nat),
      head url = none →
      downloadPdf head get url maxMb = downloadAttempts get url) := by
  constructor
  · intro head get url maxMb r s n h1 h2 h3 h4 h5
    simp [downloadPdf, probeCheck, h1, h2, h3, h4, h5]
  · intro head get url maxMb h1
    simp [downloadPdf, probeCheck, h1]

/-- C3: when the first download attempt fails the combined validation
(content-type mentions pdf AND the first bytes start with `%PDF`), the
fetch retries exactly once against the same URL with the force-download
parameter appended, re-runs the validation, and on a second validation
failure raises a terminal error carrying the observed Content-Type and the
observed first bytes. -/
theorem claim3_validation_retry (head : HeadFn) (get : GetFn) (url : String)
    (maxMb : Nat) (r1 r2 : GetResponse)
    (hprobe : probeCheck head url maxMb = .ok ())
    (h1 : get url = some r1) (hv1 : pdfValid r1 = false)
    (h2 : get (appendDownloadParam url) = some r2) (hv2 : pdfValid r2 = false) :
    downloadPdf head get url maxMb =
      ⟨.error (.notPdf r2.contentType ((firstBytes r2).take 8)),
       some (writtenBytes r2), [url, appendDownloadParam url]⟩ := by
  simp [downloadPdf, hprobe, downloadAttempts, h1, hv1, h2, hv2]

/-- C10: `summarize` returns the empty string on empty/whitespace-only
input without invoking the summarization engine, and otherwise clamps the
requested sentence count to at least 1, so a zero or negative count still
requests one sentence. -/
theorem claim10_summarize_edges (env : WEnv) (text : String) (n : Int) :
    (pyStrip text = "" → summarizeT env text n = .ok ("", none)) ∧
    (pyStrip text ≠ "" →
      summarizeT env text n =
        (env.summ text (max 1 n)).map (fun r => (r, some (max 1 n)))) ∧
    (n ≤ 0 → max (1 : Int) n = 1) := by
  refine ⟨fun h => by simp [summarizeT, h], fun h => ?_, fun h => by omega⟩
  unfold summarizeT
  rw [if_neg h]
  cases hs : env.summ text (max 1 n) <;> simp [Except.map, hs]

/-- C9: a direct-guess candidate is accepted iff its existence check
answers status 200 with a content type containing "html" or "pdf" and a
declared Content-Length above 10000; probing walks backward over a
35-day (5-week) window and stops at the first acceptance. -/
theorem claim9_direct_guess_acceptance (head : HeadFn) (today : Date) :
    (∀ r, acceptHead r = .ok true ↔
      r.status = 200 ∧
      (strContains (pyLower r.contentType) "html" = true ∨
        strContains (pyLower r.contentType) "pdf" = true) ∧
      ∃ n, pyInt? (r.contentLength.getD "0") = some n ∧ n > 10000) ∧
    (∀ url, tryDirectWeeklyPdf head today = .ok (some url) ↔
      ∃ k, k < 35 ∧
        url = directCandidateUrl today (isoYearWeek today).2 k ∧
        probeStep head (directCandidateUrl today (isoYearWeek today).2 k) = .ok true ∧
        ∀ j, j < k →
          probeStep head (directCandidateUrl today (isoYearWeek today).2 j) = .ok false) := by
  refine ⟨acceptHead_true_iff, fun url => ?_⟩
  unfold tryDirectWeeklyPdf
  rw [tryDirectLoop_some_iff]
  constructor
  · rintro ⟨k, -, hk2, hurl, hacc, hprev⟩
    exact ⟨k, by omega, hurl, hacc, fun j hj => hprev j (Nat.zero_le j) hj⟩
  · rintro ⟨k, hk, hurl, hacc, hprev⟩
    exact ⟨k, Nat.zero_le k, by omega, hurl, hacc, fun j _ hj => hprev j hj⟩

/-- C7: among all matching listing links whose existence check succeeds and
whose publication date parses from the link text, the listing scan returns
a candidate with the latest parsed publication date (ordering by parsed
date); it returns `None` when the candidate set is empty. -/
theorem claim7_listing_selection (head : HeadFn) (ujoin : String → String → String)
    (cfg : Config) (links : List Link) :
    (listingCandidates head ujoin cfg links = [] →
      scanListingPage head ujoin cfg (some links) = none) ∧
    (∀ url, scanListingPage head ujoin cfg (some links) = some url →
      ∃ best, best ∈ listingCandidates head ujoin cfg links ∧ best.2 = url ∧
        ∀ c ∈ listingCandidates head ujoin cfg links, dtLeP c.1 best.1) := by
  constructor
  · intro h; simp [scanListingPage, h, pickLatest]
  · intro url h
    exact pickLatest_spec _ _ (by simpa [scanListingPage] using h)

/-- C5 (amended): provided every direct-guess probe reply that passes the
status/content-type guard carries an integer-parsable Content-Length, the
locator returns without raising, and returns `None` exactly when all three
strategies exhaust their candidates without an acceptance.  (Without that
proviso the claim is false: see the counterexample.) -/
theorem claim5_locate_total (head : HeadFn) (ujoin : String → String → String)
    (cfg : Config) (today : Date) (listing : Option (List Link))
    (hp : ∀ k, k < 35 →
      ∃ b, probeStep head (directCandidateUrl today (isoYearWeek today).2 k) = .ok b) :
    ∃ r, fetchLatestPdfUrl head ujoin cfg today listing = .ok r ∧
      (r = none ↔ tryDirectWeeklyPdf head today = .ok none ∧
        scanListingPage head ujoin cfg listing = none ∧
        tryAlternativeUrls head = none) := by
  obtain ⟨r0, hr0⟩ := tryDirectLoop_no_error head today (isoYearWeek today).2 35 0
    (fun k _ hk2 => hp k (by omega))
  have hr0' : tryDirectWeeklyPdf head today = .ok r0 := hr0
  rcases r0 with _ | u
  · rcases hscan : scanListingPage head ujoin cfg listing with _ | u2
    · refine ⟨tryAlternativeUrls head, ?_, ?_⟩
      · simp [fetchLatestPdfUrl, fetchLatestPdfUrlT, hr0', hscan]
      · rcases halt : tryAlternativeUrls head with _ | u3 <;> simp [hr0', hscan, halt]
    · refine ⟨some u2, ?_, ?_⟩
      · simp [fetchLatestPdfUrl, fetchLatestPdfUrlT, hr0', hscan]
      · simp [hscan]
  · refine ⟨some u, ?_, ?_⟩
    · simp [fetchLatestPdfUrl, fetchLatestPdfUrlT, hr0']
    · simp [hr0']

/-- C1: when the located URL equals the persisted `last_url`, the run
terminates with status already-processed, with an empty effect trace (in
particular the Fetcher is never invoked and nothing is notified) and the
run state unchanged. -/
theorem claim1_idempotence (env : WEnv) (cfg : Config) (st0 : Option StateRec)
    (u : String)
    (hcfg : ¬(cfg.smtpServer = "" ∨ cfg.senderEmail = "" ∨ cfg.receiverEmail = ""))
    (hloc : fetchLatestPdfUrl env.head env.ujoin cfg env.today env.listing = .ok (some u))
    (hlast : getLastProcessedUrl st0 = some u) :
    run env cfg st0 = .ok ⟨.alreadyProcessed, st0, []⟩ := by
  simp [run, hcfg, hloc, hlast]

/-- C2: the run state is written only on full success — a notify failure
and a dry-run completion leave it untouched, and whenever the state does
change the run succeeded and the state now holds the current URL and the
current timestamp (and the state write is in the effect trace). -/
theorem claim2_state_only_on_success (env : WEnv) (cfg : Config)
    (st0 : Option StateRec) (out : RunOut) (h : run env cfg st0 = .ok out) :
    (out.status = .notifyFailed → out.state = st0) ∧
    (out.status = .dryRunDone → out.state = st0) ∧
    (out.state ≠ st0 → out.status = .success ∧
      ∃ u, fetchLatestPdfUrl env.head env.ujoin cfg env.today env.listing = .ok (some u) ∧
        out.state = some ⟨u, env.timeNow⟩ ∧ RunEff.save u ∈ out.effs) := by
  unfold run at h
  dsimp only at h
  repeat' split at h
  all_goals try exact (Except.noConfusion h)
  all_goals injection h with h
  all_goals subst h
  all_goals refine ⟨fun h1 => ?_, fun h2 => ?_, fun h3 => ?_⟩
  all_goals try rfl
  all_goals try exact absurd rfl h3
  · exact RunStatus.noConfusion h1
  · exact RunStatus.noConfusion h2
  · exact ⟨rfl, _, by assumption, rfl, by simp⟩

/-- C8: when a run reaches the Translate stage with non-empty condensed
text and the Translator capability fails, the pipeline substitutes the
original untranslated text and continues: with dry-run off it proceeds to
the Notify stage carrying the untranslated text (succeeding or failing
there on the transport alone), and with dry-run on it completes the
dry-run exit — in neither case does the translation failure terminate the
run. -/
theorem claim8_translation_fallback (env : WEnv) (cfg : Config)
    (st0 : Option StateRec) (u sEn : String) (file : Option (List Nat))
    (gets : List String) (cnt : Option Int)
    (tr : String → Except String String) (msg : String)
    (hcfg : ¬(cfg.smtpServer = "" ∨ cfg.senderEmail = "" ∨ cfg.receiverEmail = ""))
    (hloc : fetchLatestPdfUrl env.head env.ujoin cfg env.today env.listing = .ok (some u))
    (hnew : getLastProcessedUrl st0 ≠ some u)
    (hdl : downloadPdf env.head env.get u cfg.maxPdfMb = ⟨.ok (), file, gets⟩)
    (htext : pyStrip (env.extract (file.getD [])) ≠ "")
    (hsum : summarizeT env (env.extract (file.getD [])) (sentencesOf env cfg) =
      .ok (sEn, cnt))
    (hsEn : pyStrip sEn ≠ "")
    (hgt : env.gt = some tr) (htr : tr sEn = .error msg) :
    (cfg.dryRun = true → run env cfg st0 = .ok ⟨.dryRunDone, st0, [.fetch u]⟩) ∧
    (cfg.dryRun = false →
      (∀ e, sendEmail env cfg emailSubject sEn (buildHtml env sEn u) = .error e →
        run env cfg st0 = .ok ⟨.notifyFailed, st0,
          [.fetch u, .notify emailSubject sEn (buildHtml env sEn u)]⟩) ∧
      (sendEmail env cfg emailSubject sEn (buildHtml env sEn u) = .ok () →
        run env cfg st0 = .ok ⟨.success, some ⟨u, env.timeNow⟩,
          [.fetch u, .notify emailSubject sEn (buildHtml env sEn u), .save u]⟩)) := by
  have htrans : translateToSpanish env sEn = sEn := by
    unfold translateToSpanish
    simp [hsEn, hgt, htr]
  refine ⟨fun hdry => ?_, fun hdry => ⟨fun e hsend => ?_, fun hsend => ?_⟩⟩
  · simp [run, hcfg, hloc, hnew, hdl, htext, hsum, hsEn, htrans, hdry]
  · simp [run, hcfg, hloc, hnew, hdl, htext, hsum, hsEn, htrans, hdry, hsend]
  · simp [run, hcfg, hloc, hnew, hdl, htext, hsum, hsEn, htrans, hdry, hsend]

/-! ## Witnesses: the theorems above applied at closed inputs -/

/-- Witness for C1 at a concrete run: prior state already names the located
URL, so the run exits already-processed with no effects. -/
theorem claim1_idempotence_witness :
    run envW cfgW stSame = .ok ⟨.alreadyProcessed, stSame, []⟩ :=
  claim1_idempotence envW cfgW stSame urlW (by decide) (by decide) (by decide)

/-- Witness for C2 at a concrete dry run: the state is untouched. -/
theorem claim2_state_only_on_success_witness :
    ∃ out, run envW cfgDry stOld = .ok out ∧ out.state = stOld := by
  have h : run envW cfgDry stOld = .ok ⟨.dryRunDone, stOld, [.fetch urlW]⟩ := by decide
  exact ⟨_, h, (claim2_state_only_on_success envW cfgDry stOld _ h).2.1 rfl⟩

/-- Witness for C3 at a concrete download: both attempts answer HTML, the
retry hits the `?download=1` URL, and the final error carries the observed
content type and signature. -/
theorem claim3_validation_retry_witness :
    downloadPdf headDown getBadW "https://x.example/doc" 25 =
      ⟨.error (.notPdf "text/html" [60, 98]), some [60, 98],
       ["https://x.example/doc", "https://x.example/doc?download=1"]⟩ := by
  have h := claim3_validation_retry headDown getBadW "https://x.example/doc" 25
    ⟨"text/html", [[60, 104, 116]]⟩ ⟨"text/html", [[60, 98]]⟩
    (by decide) (by decide) (by decide) (by decide) (by decide)
  simpa using h

/-- Witness for C4 at a concrete locator run: the direct guess succeeds and
only the direct strategy is invoked. -/
theorem claim4_cascade_ordering_witness :
    fetchLatestPdfUrlT headAccept ujoinW cfgW todayW none = (.ok (some urlW), [.direct]) :=
  (claim4_cascade_ordering headAccept ujoinW cfgW todayW none).1 urlW (by decide)

/-- Counterexample to C5 as stated: with every candidate answering
200/text-html and Content-Length "abc", the locator raises `int()`'s
`ValueError` instead of never raising. -/
theorem claim5_locate_counterexample :
    fetchLatestPdfUrl headBad ujoinW cfgW todayW none = .error (.valueError "abc") := by
  decide

/-- Witness for the amended C5 at a concrete input: with every probe
failing at network level nothing raises, and the result is `None`
precisely because all three strategies exhausted their candidates. -/
theorem claim5_locate_total_witness :
    ∃ r, fetchLatestPdfUrl headDown ujoinW cfgW todayW none = .ok r ∧
      (r = none ↔ tryDirectWeeklyPdf headDown todayW = .ok none ∧
        scanListingPage headDown ujoinW cfgW none = none ∧
        tryAlternativeUrls headDown = none) :=
  claim5_locate_total headDown ujoinW cfgW todayW none (fun _ _ => ⟨false, rfl⟩)

/-- Witness for C6 at concrete inputs: an over-sized probe aborts with zero
bytes written and no GET issued; a failing probe is non-fatal. -/
theorem claim6_size_guard_witness :
    downloadPdf headBig getPdf "https://x.example/doc" 25 =
      ⟨.error (.sizeExceeded 999999999), none, []⟩ ∧
    downloadPdf headDown getPdf "https://x.example/doc" 25 =
      downloadAttempts getPdf "https://x.example/doc" :=
  ⟨claim6_size_guard.1 headBig getPdf "https://x.example/doc" 25
      ⟨200, "application/pdf", some "999999999"⟩ "999999999" 999999999
      (by decide) (by decide) (by decide) (by decide) (by decide),
   claim6_size_guard.2 headDown getPdf "https://x.example/doc" 25 (by decide)⟩

/-- Witness for C7 at a concrete listing: the returned URL is the one with
the later parsed date, although it is lexically the smaller URL. -/
theorem claim7_listing_selection_witness :
    ∃ best, best ∈ listingCandidates headAccept ujoinW cfgW linksW ∧
      best.2 = "https://a.example/r2" ∧
      ∀ c ∈ listingCandidates headAccept ujoinW cfgW linksW, dtLeP c.1 best.1 :=
  (claim7_listing_selection headAccept ujoinW cfgW linksW).2
    "https://a.example/r2" (by decide)

/-- Witness for C8 at a concrete run whose translator raises: the run still
completes its (dry-run) exit instead of terminating at Translate. -/
theorem claim8_translation_fallback_witness :
    run envTransFail cfgDry stOld = .ok ⟨.dryRunDone, stOld, [.fetch urlW]⟩ :=
  (claim8_translation_fallback envTransFail cfgDry stOld urlW "Outbreak update."
      (some [37, 80, 68, 70, 49, 50]) [urlW] (some 12)
      (fun _ => .error "api down") "api down"
      (by decide) (by decide) (by decide) (by decide) (by decide) (by decide)
      (by decide) rfl (by decide)).1 rfl

/-- Witness for C9 at a concrete network: the very first direct candidate
is accepted, so the loop returns it. -/
theorem claim9_direct_guess_acceptance_witness :
    tryDirectWeeklyPdf headAccept todayW = .ok (some urlW) :=
  ((claim9_direct_guess_acceptance headAccept todayW).2 urlW).mpr
    ⟨0, by omega, by decide, by decide, fun j hj => absurd hj (by omega)⟩

/-- Witness for C10 at concrete inputs: whitespace-only input yields `""`
with the engine not invoked; a negative requested count is clamped to 1. -/
theorem claim10_summarize_edges_witness :
    summarizeT envW "  " 5 = .ok ("", none) ∧
    summarizeT envW "hi" (-2) =
      (envW.summ "hi" (max 1 (-2))).map (fun r => (r, some (max 1 (-2)))) :=
  ⟨(claim10_summarize_edges envW "  " 5).1 (by decide),
   (claim10_summarize_edges envW "hi" (-2)).2.1 (by decide)⟩

end WeeklyAgent
